import Mathlib

/-!
Shallow embedding of the etcd leader-election program (`leader.go`).

The program runs many actors; each actor repeatedly executes one election
cycle (`loop` in the source).  A cycle performs blocking store calls (one
`Get` on the leader key, then depending on the response up to two `Put`s),
possibly an injected stall sleep, and a final jittered sleep.

Modelling choices:
* Durations are `ℤ` nanoseconds (Go's `time.Duration` is an `int64` of
  nanoseconds; `time.Second = 1000000000`).
* The random draws of `rand.Float32()` are modelled as exact rationals in
  `[0, 1)`; the `float32` arithmetic of the jitter computation is idealised
  as exact rational arithmetic followed by the integer truncation performed
  by the `time.Duration(...)` conversion (the values involved are
  non-negative, so truncation toward zero is `Int.floor`).
* One cycle's interaction with the store is captured by an `Env` record
  holding the outcome the store would give to each call the cycle can make
  (`nil`-error success with a parsed response, or a transport/parse error),
  plus the two random draws consumed by the cycle.
* The cycle returns the updated actor state, the `bool` the Go `loop`
  returns (`true` = keep looping), and a trace of events: every store call
  with its key, value, options and outcome, and every sleep with its
  duration, in program order.  Console printing is diagnostic only and is
  not modelled.
-/

namespace EtcdLeader

/-- Go struct `State`: the per-actor election state (`key`, `id`, `leader`,
`ttl`). -/
structure State where
  key : String
  id : String
  leader : Bool
  ttl : ℤ
  deriving DecidableEq, Repr

/-- Go struct `Node`: the node part of an etcd response. -/
structure Node where
  CreatedIndex : ℤ
  key : String
  ModifiedIndex : ℤ
  value : String
  deriving DecidableEq, Repr

/-- Go struct `EtcdResponse`: parsed store response (`errorCode`, `message`,
`action`, `node`). -/
structure EtcdResponse where
  ErrorCode : ℤ
  Message : String
  Action : String
  node : Node
  deriving DecidableEq, Repr

/-- Go struct `Option`: per-call request directives (`ttl`, `wait`,
`prevExist`, `prevIndex`).  `prevExist` is the Go `int`: `1` encodes
must-exist, `-1` must-not-exist, anything else unspecified. -/
structure Option where
  ttl : ℤ
  wait : Bool
  prevExist : ℤ
  prevIndex : ℤ
  deriving DecidableEq, Repr

/-- Outcome of one store call as seen by the caller of
`EtcdClient.Get/Put`: either a parsed `EtcdResponse` (Go `err == nil`) or a
transport/parse error (Go `err != nil`). -/
inductive StoreResult where
  | ok (resp : EtcdResponse)
  | transportError
  deriving DecidableEq, Repr

/-- Body of `EtcdClient.Put` (leader.go lines 67-91): the form fields added
to the request, in the order the source adds them.  `value` is always
added; `ttl` (integer seconds, Go `int(option.ttl / time.Second)` with
truncating division) only when `option.ttl != 0`; `prevExist` is `"true"`
for `1`, `"false"` for `-1`, omitted otherwise; `prevIndex` only when
nonzero. -/
def putBody (value : String) (opt : Option) : List (String × String) :=
  [("value", value)]
    ++ (if opt.ttl ≠ 0 then [("ttl", toString (Int.tdiv opt.ttl 1000000000))] else [])
    ++ (if opt.prevExist = 1 then [("prevExist", "true")]
        else if opt.prevExist = -1 then [("prevExist", "false")]
        else [])
    ++ (if opt.prevIndex ≠ 0 then [("prevIndex", toString opt.prevIndex)] else [])

/-- Observable event of one cycle: a store call together with the outcome
the store returned for it, or a sleep of a given duration (ns). -/
inductive Event where
  | getCall (key : String) (opt : Option) (result : StoreResult)
  | putCall (key : String) (value : String) (opt : Option) (result : StoreResult)
  | sleepFor (d : ℤ)
  deriving DecidableEq, Repr

/-- Environment of one cycle: the outcome the store gives to each call the
cycle can make, and the two `rand.Float32()` draws the cycle can consume
(`stallDraw` for the `< 0.25` stall test, `jitterDraw` for the final
sleep), modelled as exact rationals in `[0,1)`. -/
structure Env where
  getResult : StoreResult
  acquireResult : StoreResult
  renewResult : StoreResult
  broadcastResult : StoreResult
  stallDraw : ℚ
  jitterDraw : ℚ
  deriving DecidableEq, Repr

/-- Result of one cycle: the actor state after the cycle, the boolean the
Go `loop` returns (`true` = continue looping, `false` = stop the actor),
and the trace of events in program order. -/
structure CycleResult where
  state : State
  success : Bool
  events : List Event
  deriving DecidableEq, Repr

/-- Jitter multiplier of leader.go line 211: `0.5 + rand.Float32()`. -/
def jitterMultiplier (r : ℚ) : ℚ := 1/2 + r

/-- Inter-cycle sleep of leader.go line 211:
`time.Duration(float32(state.ttl/4) * (0.5 + rand.Float32()))`.
`state.ttl/4` is Go integer division (`Int.tdiv`); the float product is
idealised as exact rational arithmetic, and the `time.Duration`
conversion truncates (floor, as all quantities are non-negative in the
program). -/
def jitterSleep (ttl : ℤ) (r : ℚ) : ℤ :=
  ⌊((Int.tdiv ttl 4 : ℤ) : ℚ) * jitterMultiplier r⌋

/-- One election cycle: Go function `loop` (leader.go lines 140-214),
with the store and randomness supplied by `env`.  Mirrors the source
branch for branch; `state.leader` is mutated exactly where the source
assigns `state.leader`. -/
def loop (state : State) (env : Env) : CycleResult :=
  let leaderKey := state.key ++ "-leader"
  let broadcastKey := state.key ++ "-broadcast"
  let getEvent := Event.getCall leaderKey ⟨0, false, 0, 0⟩ env.getResult
  match env.getResult with
  | .transportError => { state := state, success := false, events := [getEvent] }
  | .ok resp =>
    if resp.ErrorCode = 100 then
      -- no lock: attempt to create it with a must-not-exist write
      let acquireOpt : Option := ⟨0, false, -1, 0⟩
      let acquireEvent := Event.putCall leaderKey state.id acquireOpt env.acquireResult
      match env.acquireResult with
      | .transportError =>
        { state := state, success := false, events := [getEvent, acquireEvent] }
      | .ok resp2 =>
        if resp2.ErrorCode = 0 then
          let publishEvent :=
            Event.putCall broadcastKey state.id ⟨0, false, 0, 0⟩ env.broadcastResult
          match env.broadcastResult with
          | .transportError =>
            { state := state, success := false,
              events := [getEvent, acquireEvent, publishEvent] }
          | .ok _ =>
            { state := { state with leader := true }, success := true,
              events := [getEvent, acquireEvent, publishEvent,
                Event.sleepFor (jitterSleep state.ttl env.jitterDraw)] }
        else
          { state := state, success := true,
            events := [getEvent, acquireEvent,
              Event.sleepFor (jitterSleep state.ttl env.jitterDraw)] }
    else if resp.ErrorCode = 0 then
      if resp.node.value = state.id then
        -- lock present and held by this actor: maybe stall, then renew
        let stallEvents :=
          if env.stallDraw < 1/4 then [Event.sleepFor (state.ttl * 10)] else []
        let renewOpt : Option := ⟨state.ttl, false, 0, resp.node.ModifiedIndex⟩
        let renewEvent := Event.putCall leaderKey state.id renewOpt env.renewResult
        match env.renewResult with
        | .transportError =>
          { state := state, success := false,
            events := [getEvent] ++ stallEvents ++ [renewEvent] }
        | .ok resp2 =>
          if resp2.ErrorCode = 0 then
            let publishEvent :=
              Event.putCall broadcastKey state.id ⟨0, false, -1, 0⟩ env.broadcastResult
            match env.broadcastResult with
            | .transportError =>
              { state := state, success := false,
                events := [getEvent] ++ stallEvents ++ [renewEvent, publishEvent] }
            | .ok _ =>
              { state := state, success := true,
                events := [getEvent] ++ stallEvents ++ [renewEvent, publishEvent,
                  Event.sleepFor (jitterSleep state.ttl env.jitterDraw)] }
          else
            { state := { state with leader := false }, success := true,
              events := [getEvent] ++ stallEvents ++ [renewEvent,
                Event.sleepFor (jitterSleep state.ttl env.jitterDraw)] }
      else
        -- lock present, held by someone else
        { state := state, success := true,
          events := [getEvent, Event.sleepFor (jitterSleep state.ttl env.jitterDraw)] }
    else
      -- any other errorCode: no branch matches, fall through to the sleep
      { state := state, success := true,
        events := [getEvent, Event.sleepFor (jitterSleep state.ttl env.jitterDraw)] }

/-- Initial actor state built by Go function `run` (leader.go lines
127-138): `key = shard`, `id = fmt.Sprintf("%d", id)`, not leader,
`ttl = time.Second * 1`. -/
def initialState (shard : String) (id : ℕ) : State :=
  { key := shard, id := toString id, leader := false, ttl := 1000000000 }

/-- Boolean test: is this event a store call whose outcome was a
transport/parse error? -/
def Event.hasTransportError : Event → Bool
  | .getCall _ _ .transportError => true
  | .getCall _ _ (.ok _) => false
  | .putCall _ _ _ .transportError => true
  | .putCall _ _ _ (.ok _) => false
  | .sleepFor _ => false

/-- Boolean test: is this event a `Put` call on the given key? -/
def isPutToKey (key : String) : Event → Bool
  | .getCall _ _ _ => false
  | .putCall k _ _ _ => k = key
  | .sleepFor _ => false

/-- Boolean test: is this event a `Put` or `Delete` store call?  (The
cycle never issues a `Delete`, so only `Put` events can make it true.) -/
def Event.isWrite : Event → Bool
  | .putCall _ _ _ _ => true
  | _ => false

/-- The leader key and the broadcast key of one shard are distinct. -/
lemma append_leader_ne_append_broadcast (a : String) :
    a ++ "-leader" ≠ a ++ "-broadcast" := by
  intro h
  have h2 := congrArg String.length h
  rw [String.length_append, String.length_append] at h2
  have e1 : ("-leader" : String).length = 7 := rfl
  have e2 : ("-broadcast" : String).length = 10 := rfl
  omega

/-- Bounds of the jittered sleep: when `8 ∣ ttl` and `ttl ≥ 0` (the
program uses `ttl = 10^9`), the computed sleep lies in
`[ttl/8, 3·ttl/8]` for every draw `r ∈ [0, 1)`. -/
lemma jitterSleep_bounds (ttl : ℤ) (r : ℚ) (h8 : (8 : ℤ) ∣ ttl) (ht : 0 ≤ ttl)
    (hr0 : 0 ≤ r) (hr1 : r < 1) :
    (ttl : ℚ)/8 ≤ (jitterSleep ttl r : ℚ) ∧ (jitterSleep ttl r : ℚ) ≤ 3 * ttl/8 := by
  obtain ⟨m, rfl⟩ := h8
  have hm : 0 ≤ m := by omega
  have hmQ : (0 : ℚ) ≤ (m : ℚ) := by exact_mod_cast hm
  have htd : Int.tdiv (8 * m) 4 = 2 * m := by
    rw [show (8 : ℤ) * m = 4 * (2 * m) by ring]
    exact Int.mul_tdiv_cancel_left _ (by norm_num)
  unfold jitterSleep jitterMultiplier
  rw [htd]
  have h1 : ((2 * m : ℤ) : ℚ) * (1/2 + r) = (m : ℚ) + 2 * m * r := by push_cast; ring
  rw [h1]
  have h2 : ⌊(m : ℚ) + 2 * m * r⌋ = m + ⌊(2 * (m : ℚ) * r)⌋ := by
    rw [show (m : ℚ) + 2 * m * r = (m : ℤ) + 2 * (m : ℚ) * r by ring]
    exact Int.floor_int_add m _
  rw [h2]
  have hmr0 : (0 : ℚ) ≤ 2 * m * r := by positivity
  have hlb : (0 : ℤ) ≤ ⌊(2 * (m : ℚ) * r)⌋ := Int.floor_nonneg.mpr hmr0
  have hub : ⌊(2 * (m : ℚ) * r)⌋ ≤ 2 * m := by
    have hle : (2 * (m : ℚ) * r) ≤ ((2 * m : ℤ) : ℚ) := by
      push_cast
      nlinarith
    calc ⌊(2 * (m : ℚ) * r)⌋ ≤ ⌊((2 * m : ℤ) : ℚ)⌋ := Int.floor_le_floor hle
      _ = 2 * m := Int.floor_intCast _
  constructor
  · have hcast : ((m : ℤ) : ℚ) ≤ ((m + ⌊(2 * (m : ℚ) * r)⌋ : ℤ) : ℚ) := by
      exact_mod_cast (by omega : m ≤ m + ⌊(2 * (m : ℚ) * r)⌋)
    push_cast at hcast ⊢
    linarith
  · have hcast : ((m + ⌊(2 * (m : ℚ) * r)⌋ : ℤ) : ℚ) ≤ ((3 * m : ℤ) : ℚ) := by
      exact_mod_cast (by omega : m + ⌊(2 * (m : ℚ) * r)⌋ ≤ 3 * m)
    push_cast at hcast ⊢
    linarith

/-! Branch-by-branch characterisation of one cycle: each lemma gives the
full `CycleResult` of `loop` on one leaf of the source's branch tree. -/

/-- Leaf: the initial `Get` fails with a transport error (leader.go 148-151). -/
lemma loop_eq_get_transport (s : State) (e : Env)
    (h : e.getResult = .transportError) :
    loop s e =
      { state := s, success := false,
        events := [.getCall (s.key ++ "-leader") ⟨0, false, 0, 0⟩ .transportError] } := by
  simp [loop, h]

/-- Leaf: key absent, acquisition `Put` fails with a transport error
(leader.go 154-158). -/
lemma loop_eq_acquire_transport (s : State) (e : Env) (g : EtcdResponse)
    (hg : e.getResult = .ok g) (hec : g.ErrorCode = 100)
    (ha : e.acquireResult = .transportError) :
    loop s e =
      { state := s, success := false,
        events := [.getCall (s.key ++ "-leader") ⟨0, false, 0, 0⟩ (.ok g),
          .putCall (s.key ++ "-leader") s.id ⟨0, false, -1, 0⟩ .transportError] } := by
  simp [loop, hg, hec, ha]

/-- Leaf: key absent, acquisition succeeds, broadcast publish fails with a
transport error (leader.go 159-169): the actor stops before
`state.leader = true` is executed. -/
lemma loop_eq_acquire_publish_transport (s : State) (e : Env) (g p : EtcdResponse)
    (hg : e.getResult = .ok g) (hec : g.ErrorCode = 100)
    (ha : e.acquireResult = .ok p) (hp : p.ErrorCode = 0)
    (hb : e.broadcastResult = .transportError) :
    loop s e =
      { state := s, success := false,
        events := [.getCall (s.key ++ "-leader") ⟨0, false, 0, 0⟩ (.ok g),
          .putCall (s.key ++ "-leader") s.id ⟨0, false, -1, 0⟩ (.ok p),
          .putCall (s.key ++ "-broadcast") s.id ⟨0, false, 0, 0⟩ .transportError] } := by
  simp [loop, hg, hec, ha, hp, hb]

/-- Leaf: key absent, acquisition succeeds, broadcast publish returns a
parsed response (leader.go 159-170): the actor becomes leader whatever
the publish's `errorCode`. -/
lemma loop_eq_acquire_publish_ok (s : State) (e : Env) (g p b : EtcdResponse)
    (hg : e.getResult = .ok g) (hec : g.ErrorCode = 100)
    (ha : e.acquireResult = .ok p) (hp : p.ErrorCode = 0)
    (hb : e.broadcastResult = .ok b) :
    loop s e =
      { state := { s with leader := true }, success := true,
        events := [.getCall (s.key ++ "-leader") ⟨0, false, 0, 0⟩ (.ok g),
          .putCall (s.key ++ "-leader") s.id ⟨0, false, -1, 0⟩ (.ok p),
          .putCall (s.key ++ "-broadcast") s.id ⟨0, false, 0, 0⟩ (.ok b),
          .sleepFor (jitterSleep s.ttl e.jitterDraw)] } := by
  simp [loop, hg, hec, ha, hp, hb]

/-- Leaf: key absent, acquisition `Put` returns a nonzero `errorCode`
(lost the creation race, leader.go 171-173): state untouched. -/
lemma loop_eq_acquire_fail (s : State) (e : Env) (g p : EtcdResponse)
    (hg : e.getResult = .ok g) (hec : g.ErrorCode = 100)
    (ha : e.acquireResult = .ok p) (hp : p.ErrorCode ≠ 0) :
    loop s e =
      { state := s, success := true,
        events := [.getCall (s.key ++ "-leader") ⟨0, false, 0, 0⟩ (.ok g),
          .putCall (s.key ++ "-leader") s.id ⟨0, false, -1, 0⟩ (.ok p),
          .sleepFor (jitterSleep s.ttl e.jitterDraw)] } := by
  simp [loop, hg, hec, ha, hp]

/-- Leaf: key held by this actor, renewal `Put` fails with a transport
error (leader.go 175-190). -/
lemma loop_eq_renew_transport (s : State) (e : Env) (g : EtcdResponse)
    (hg : e.getResult = .ok g) (hec : g.ErrorCode = 0)
    (hv : g.node.value = s.id) (hr : e.renewResult = .transportError) :
    loop s e =
      { state := s, success := false,
        events := [Event.getCall (s.key ++ "-leader") ⟨0, false, 0, 0⟩ (.ok g)]
          ++ (if e.stallDraw < 1/4 then [Event.sleepFor (s.ttl * 10)] else [])
          ++ [Event.putCall (s.key ++ "-leader") s.id
              ⟨s.ttl, false, 0, g.node.ModifiedIndex⟩ .transportError] } := by
  simp [loop, hg, hec, hv, hr]

/-- Leaf: renewal succeeds, broadcast publish fails with a transport error
(leader.go 191-201). -/
lemma loop_eq_renew_publish_transport (s : State) (e : Env) (g p : EtcdResponse)
    (hg : e.getResult = .ok g) (hec : g.ErrorCode = 0)
    (hv : g.node.value = s.id) (hr : e.renewResult = .ok p) (hp : p.ErrorCode = 0)
    (hb : e.broadcastResult = .transportError) :
    loop s e =
      { state := s, success := false,
        events := [Event.getCall (s.key ++ "-leader") ⟨0, false, 0, 0⟩ (.ok g)]
          ++ (if e.stallDraw < 1/4 then [Event.sleepFor (s.ttl * 10)] else [])
          ++ [Event.putCall (s.key ++ "-leader") s.id
                ⟨s.ttl, false, 0, g.node.ModifiedIndex⟩ (.ok p),
              Event.putCall (s.key ++ "-broadcast") s.id ⟨0, false, -1, 0⟩ .transportError] } := by
  simp [loop, hg, hec, hv, hr, hp, hb]

/-- Leaf: renewal succeeds, broadcast publish returns a parsed response
(leader.go 191-201): its `errorCode` is ignored, state untouched. -/
lemma loop_eq_renew_publish_ok (s : State) (e : Env) (g p b : EtcdResponse)
    (hg : e.getResult = .ok g) (hec : g.ErrorCode = 0)
    (hv : g.node.value = s.id) (hr : e.renewResult = .ok p) (hp : p.ErrorCode = 0)
    (hb : e.broadcastResult = .ok b) :
    loop s e =
      { state := s, success := true,
        events := [Event.getCall (s.key ++ "-leader") ⟨0, false, 0, 0⟩ (.ok g)]
          ++ (if e.stallDraw < 1/4 then [Event.sleepFor (s.ttl * 10)] else [])
          ++ [Event.putCall (s.key ++ "-leader") s.id
                ⟨s.ttl, false, 0, g.node.ModifiedIndex⟩ (.ok p),
              Event.putCall (s.key ++ "-broadcast") s.id ⟨0, false, -1, 0⟩ (.ok b),
              Event.sleepFor (jitterSleep s.ttl e.jitterDraw)] } := by
  simp [loop, hg, hec, hv, hr, hp, hb]

/-- Leaf: renewal `Put` returns a nonzero `errorCode` (fencing mismatch,
leader.go 202-206): the actor demotes itself. -/
lemma loop_eq_renew_fail (s : State) (e : Env) (g p : EtcdResponse)
    (hg : e.getResult = .ok g) (hec : g.ErrorCode = 0)
    (hv : g.node.value = s.id) (hr : e.renewResult = .ok p) (hp : p.ErrorCode ≠ 0) :
    loop s e =
      { state := { s with leader := false }, success := true,
        events := [Event.getCall (s.key ++ "-leader") ⟨0, false, 0, 0⟩ (.ok g)]
          ++ (if e.stallDraw < 1/4 then [Event.sleepFor (s.ttl * 10)] else [])
          ++ [Event.putCall (s.key ++ "-leader") s.id
                ⟨s.ttl, false, 0, g.node.ModifiedIndex⟩ (.ok p),
              Event.sleepFor (jitterSleep s.ttl e.jitterDraw)] } := by
  simp [loop, hg, hec, hv, hr, hp]

/-- Leaf: key held by another actor (leader.go 207-209): nothing happens
before the jittered sleep. -/
lemma loop_eq_other_holder (s : State) (e : Env) (g : EtcdResponse)
    (hg : e.getResult = .ok g) (hec : g.ErrorCode = 0)
    (hv : g.node.value ≠ s.id) :
    loop s e =
      { state := s, success := true,
        events := [.getCall (s.key ++ "-leader") ⟨0, false, 0, 0⟩ (.ok g),
          .sleepFor (jitterSleep s.ttl e.jitterDraw)] } := by
  simp [loop, hg, hec, hv]

/-- Leaf: the `Get` returns an `errorCode` that is neither `0` nor `100`
(no source branch matches, leader.go 152 and 174 both fail): nothing
happens before the jittered sleep. -/
lemma loop_eq_unknown_code (s : State) (e : Env) (g : EtcdResponse)
    (hg : e.getResult = .ok g) (hec0 : g.ErrorCode ≠ 0) (hec100 : g.ErrorCode ≠ 100) :
    loop s e =
      { state := s, success := true,
        events := [.getCall (s.key ++ "-leader") ⟨0, false, 0, 0⟩ (.ok g),
          .sleepFor (jitterSleep s.ttl e.jitterDraw)] } := by
  simp [loop, hg, hec0, hec100]

/-- Claim C5: the cycle returns the stop signal (`success = false`) if and
only if one of the store calls it made yielded a transport error; every
parsed response, whatever its `errorCode`, lets the cycle complete and the
loop continue. -/
theorem claim_C5_transport_iff_stop (s : State) (e : Env) :
    (loop s e).success = true ↔
      ∀ ev ∈ (loop s e).events, ev.hasTransportError = false := by
  cases hg : e.getResult with
  | transportError =>
    rw [loop_eq_get_transport s e hg]
    simp [Event.hasTransportError]
  | ok g =>
    by_cases h100 : g.ErrorCode = 100
    · cases ha : e.acquireResult with
      | transportError =>
        rw [loop_eq_acquire_transport s e g hg h100 ha]
        simp [Event.hasTransportError]
      | ok p =>
        by_cases hp : p.ErrorCode = 0
        · cases hb : e.broadcastResult with
          | transportError =>
            rw [loop_eq_acquire_publish_transport s e g p hg h100 ha hp hb]
            simp [Event.hasTransportError]
          | ok b =>
            rw [loop_eq_acquire_publish_ok s e g p b hg h100 ha hp hb]
            simp [Event.hasTransportError]
        · rw [loop_eq_acquire_fail s e g p hg h100 ha hp]
          simp [Event.hasTransportError]
    · by_cases h0 : g.ErrorCode = 0
      · by_cases hv : g.node.value = s.id
        · cases hr : e.renewResult with
          | transportError =>
            rw [loop_eq_renew_transport s e g hg h0 hv hr]
            by_cases hst : e.stallDraw < 1/4
            · rw [if_pos hst]; simp [Event.hasTransportError]
            · rw [if_neg hst]; simp [Event.hasTransportError]
          | ok p =>
            by_cases hp : p.ErrorCode = 0
            · cases hb : e.broadcastResult with
              | transportError =>
                rw [loop_eq_renew_publish_transport s e g p hg h0 hv hr hp hb]
                by_cases hst : e.stallDraw < 1/4
                · rw [if_pos hst]; simp [Event.hasTransportError]
                · rw [if_neg hst]; simp [Event.hasTransportError]
              | ok b =>
                rw [loop_eq_renew_publish_ok s e g p b hg h0 hv hr hp hb]
                by_cases hst : e.stallDraw < 1/4
                · rw [if_pos hst]; simp [Event.hasTransportError]
                · rw [if_neg hst]; simp [Event.hasTransportError]
            · rw [loop_eq_renew_fail s e g p hg h0 hv hr hp]
              by_cases hst : e.stallDraw < 1/4
              · rw [if_pos hst]; simp [Event.hasTransportError]
              · rw [if_neg hst]; simp [Event.hasTransportError]
        · rw [loop_eq_other_holder s e g hg h0 hv]
          simp [Event.hasTransportError]
      · rw [loop_eq_unknown_code s e g hg h0 h100]
        simp [Event.hasTransportError]

/-- Claim C7: the encoded `Put` request body contains `value` always;
`ttl` (as truncated integer seconds) exactly when `opt.ttl ≠ 0`;
`prevExist` with value `"true"` for must-exist (`1`), `"false"` for
must-not-exist (`-1`) and omitted otherwise; and `prevIndex` exactly when
`opt.prevIndex ≠ 0`. -/
theorem claim_C7_put_encoding (value : String) (opt : Option) :
    (("value", value) ∈ putBody value opt)
  ∧ ((∃ v, ("ttl", v) ∈ putBody value opt) ↔ opt.ttl ≠ 0)
  ∧ (opt.ttl ≠ 0 → ("ttl", toString (Int.tdiv opt.ttl 1000000000)) ∈ putBody value opt)
  ∧ (("prevExist", "true") ∈ putBody value opt ↔ opt.prevExist = 1)
  ∧ (("prevExist", "false") ∈ putBody value opt ↔ opt.prevExist = -1)
  ∧ ((∃ v, ("prevExist", v) ∈ putBody value opt) ↔ (opt.prevExist = 1 ∨ opt.prevExist = -1))
  ∧ ((∃ v, ("prevIndex", v) ∈ putBody value opt) ↔ opt.prevIndex ≠ 0) := by
  unfold putBody
  split_ifs <;> simp_all [Prod.ext_iff]

/-- Claim C7 witness: the encoding properties at a concrete call. -/
theorem claim_C7_witness :
    (("value", "7") ∈ putBody "7" ⟨2000000000, false, -1, 5⟩)
  ∧ ((∃ v, ("ttl", v) ∈ putBody "7" ⟨2000000000, false, -1, 5⟩) ↔ (2000000000 : ℤ) ≠ 0)
  ∧ ((2000000000 : ℤ) ≠ 0 →
      ("ttl", toString (Int.tdiv (2000000000 : ℤ) 1000000000)) ∈ putBody "7" ⟨2000000000, false, -1, 5⟩)
  ∧ (("prevExist", "true") ∈ putBody "7" ⟨2000000000, false, -1, 5⟩ ↔ (-1 : ℤ) = 1)
  ∧ (("prevExist", "false") ∈ putBody "7" ⟨2000000000, false, -1, 5⟩ ↔ (-1 : ℤ) = -1)
  ∧ ((∃ v, ("prevExist", v) ∈ putBody "7" ⟨2000000000, false, -1, 5⟩) ↔
      ((-1 : ℤ) = 1 ∨ (-1 : ℤ) = -1))
  ∧ ((∃ v, ("prevIndex", v) ∈ putBody "7" ⟨2000000000, false, -1, 5⟩) ↔ (5 : ℤ) ≠ 0) :=
  claim_C7_put_encoding "7" ⟨2000000000, false, -1, 5⟩

/-- Claim C1: when the `Get` succeeds (`errorCode = 0`) and the stored
value is this actor's id, the cycle first sleeps `10 × ttl` exactly when
the single stall draw is below `0.25`, then issues exactly one `Put` on
the leader key, carrying `value = actorID`, `prevIndex` equal to the
`ModifiedIndex` returned by that `Get` and `ttl = leaseTTL`; if that `Put`
comes back with a nonzero `errorCode` the actor's `leader` field becomes
`false`. -/
theorem claim_C1_renewal (s : State) (e : Env) (g : EtcdResponse)
    (hg : e.getResult = .ok g) (hec : g.ErrorCode = 0) (hv : g.node.value = s.id) :
    ((loop s e).events.countP (isPutToKey (s.key ++ "-leader")) = 1)
  ∧ (Event.putCall (s.key ++ "-leader") s.id ⟨s.ttl, false, 0, g.node.ModifiedIndex⟩
      e.renewResult ∈ (loop s e).events)
  ∧ (∃ tail, (loop s e).events =
      Event.getCall (s.key ++ "-leader") ⟨0, false, 0, 0⟩ (.ok g)
        :: ((if e.stallDraw < 1/4 then [Event.sleepFor (s.ttl * 10)] else [])
          ++ Event.putCall (s.key ++ "-leader") s.id ⟨s.ttl, false, 0, g.node.ModifiedIndex⟩
              e.renewResult :: tail))
  ∧ (∀ p, e.renewResult = .ok p → p.ErrorCode ≠ 0 → (loop s e).state.leader = false) := by
  have hne := (append_leader_ne_append_broadcast s.key).symm
  cases hr : e.renewResult with
  | transportError =>
    rw [loop_eq_renew_transport s e g hg hec hv hr]
    refine ⟨?_, by simp, ⟨[], by simp⟩, ?_⟩
    · by_cases hst : e.stallDraw < 1/4
      · rw [if_pos hst]; simp [isPutToKey, List.countP_cons, hne]
      · rw [if_neg hst]; simp [isPutToKey, List.countP_cons, hne]
    · intro p h1 _
      exact absurd h1 (by simp)
  | ok p =>
    by_cases hp : p.ErrorCode = 0
    · cases hb : e.broadcastResult with
      | transportError =>
        rw [loop_eq_renew_publish_transport s e g p hg hec hv hr hp hb]
        refine ⟨?_,
          by simp,
          ⟨[Event.putCall (s.key ++ "-broadcast") s.id ⟨0, false, -1, 0⟩ .transportError],
            by simp⟩, ?_⟩
        · by_cases hst : e.stallDraw < 1/4
          · rw [if_pos hst]; simp [isPutToKey, List.countP_cons, hne]
          · rw [if_neg hst]; simp [isPutToKey, List.countP_cons, hne]
        · intro p' h1 h2
          injection h1 with h3
          subst h3
          exact absurd hp h2
      | ok b =>
        rw [loop_eq_renew_publish_ok s e g p b hg hec hv hr hp hb]
        refine ⟨?_,
          by simp,
          ⟨[Event.putCall (s.key ++ "-broadcast") s.id ⟨0, false, -1, 0⟩ (.ok b),
            Event.sleepFor (jitterSleep s.ttl e.jitterDraw)],
            by simp⟩, ?_⟩
        · by_cases hst : e.stallDraw < 1/4
          · rw [if_pos hst]; simp [isPutToKey, List.countP_cons, hne]
          · rw [if_neg hst]; simp [isPutToKey, List.countP_cons, hne]
        · intro p' h1 h2
          injection h1 with h3
          subst h3
          exact absurd hp h2
    · rw [loop_eq_renew_fail s e g p hg hec hv hr hp]
      refine ⟨?_, by simp, ⟨[Event.sleepFor (jitterSleep s.ttl e.jitterDraw)], by simp⟩, ?_⟩
      · by_cases hst : e.stallDraw < 1/4
        · rw [if_pos hst]; simp [isPutToKey, List.countP_cons, hne]
        · rw [if_neg hst]; simp [isPutToKey, List.countP_cons, hne]
      · intro p' _ _
        rfl

/-- Concrete actor state for the claim C1 witness. -/
def stateW1 : State := ⟨"shard-5", "7", true, 1000000000⟩

/-- Concrete `Get` response for the claim C1 witness: the leader key holds
this actor's id. -/
def respW1 : EtcdResponse := ⟨0, "", "get", ⟨3, "shard-5-leader", 3, "7"⟩⟩

/-- Concrete rejected renewal response for the claim C1 witness. -/
def renewRespW1 : EtcdResponse := ⟨101, "Compare failed", "compareAndSwap", ⟨0, "", 0, ""⟩⟩

/-- Concrete environment for the claim C1 witness: `Get` finds this
actor's id, the stall draw is below `0.25`, the renewal is rejected. -/
def envW1 : Env := ⟨.ok respW1, .transportError, .ok renewRespW1, .transportError, 1/8, 1/2⟩

/-- Claim C1 witness: the renewal cycle behaviour at a concrete input
whose renewal `Put` is rejected with `errorCode = 101`. -/
theorem claim_C1_witness :
    ((loop stateW1 envW1).events.countP (isPutToKey (stateW1.key ++ "-leader")) = 1)
  ∧ (Event.putCall (stateW1.key ++ "-leader") stateW1.id
      ⟨stateW1.ttl, false, 0, respW1.node.ModifiedIndex⟩
      envW1.renewResult ∈ (loop stateW1 envW1).events)
  ∧ (∃ tail, (loop stateW1 envW1).events =
      Event.getCall (stateW1.key ++ "-leader") ⟨0, false, 0, 0⟩ (.ok respW1)
        :: ((if envW1.stallDraw < 1/4 then [Event.sleepFor (stateW1.ttl * 10)] else [])
          ++ Event.putCall (stateW1.key ++ "-leader") stateW1.id
              ⟨stateW1.ttl, false, 0, respW1.node.ModifiedIndex⟩
              envW1.renewResult :: tail))
  ∧ (∀ p, envW1.renewResult = .ok p → p.ErrorCode ≠ 0 →
      (loop stateW1 envW1).state.leader = false) :=
  claim_C1_renewal stateW1 envW1 respW1 rfl rfl rfl

/-- Claim C4: when the renewal `Put` succeeds (`errorCode = 0`), the
actor state — `leader` included — is unchanged, the cycle publishes the
id to the broadcast key with the must-not-exist precondition, and a
parsed broadcast response (any `errorCode`) leaves the cycle completing
normally. -/
theorem claim_C4_renew_success (s : State) (e : Env) (g p : EtcdResponse)
    (hg : e.getResult = .ok g) (hec : g.ErrorCode = 0) (hv : g.node.value = s.id)
    (hr : e.renewResult = .ok p) (hp : p.ErrorCode = 0) :
    (loop s e).state = s
  ∧ (Event.putCall (s.key ++ "-broadcast") s.id ⟨0, false, -1, 0⟩
      e.broadcastResult ∈ (loop s e).events)
  ∧ (∀ b, e.broadcastResult = .ok b → (loop s e).success = true) := by
  cases hb : e.broadcastResult with
  | transportError =>
    rw [loop_eq_renew_publish_transport s e g p hg hec hv hr hp hb]
    refine ⟨rfl, by simp, ?_⟩
    intro b h1
    exact absurd h1 (by simp)
  | ok b =>
    rw [loop_eq_renew_publish_ok s e g p b hg hec hv hr hp hb]
    exact ⟨rfl, by simp, fun _ _ => rfl⟩

/-- Concrete successful renewal response for the claim C4 witness. -/
def renewRespW4 : EtcdResponse := ⟨0, "", "compareAndSwap", ⟨4, "shard-5-leader", 4, "7"⟩⟩

/-- Concrete rejected broadcast response for the claim C4 witness (its
`errorCode = 105` is ignored by the cycle). -/
def broadcastRespW4 : EtcdResponse := ⟨105, "Key already exists", "create", ⟨0, "", 0, ""⟩⟩

/-- Concrete environment for the claim C4 witness. -/
def envW4 : Env :=
  ⟨.ok respW1, .transportError, .ok renewRespW4, .ok broadcastRespW4, 1/2, 1/2⟩

/-- Claim C4 witness: a successful renewal followed by a rejected
broadcast publish at a concrete input. -/
theorem claim_C4_witness :
    (loop stateW1 envW4).state = stateW1
  ∧ (Event.putCall (stateW1.key ++ "-broadcast") stateW1.id ⟨0, false, -1, 0⟩
      envW4.broadcastResult ∈ (loop stateW1 envW4).events)
  ∧ (∀ b, envW4.broadcastResult = .ok b → (loop stateW1 envW4).success = true) :=
  claim_C4_renew_success stateW1 envW4 respW1 renewRespW4 rfl rfl rfl rfl rfl

/-- Concrete actor state for the claim C2 analysis: a follower. -/
def stateW2 : State := ⟨"shard-5", "0", false, 1000000000⟩

/-- Concrete key-absent `Get` response (`errorCode = 100`). -/
def getRespW2 : EtcdResponse := ⟨100, "Key not found", "get", ⟨0, "", 0, ""⟩⟩

/-- Concrete successful acquisition response (`errorCode = 0`). -/
def acquireRespW2 : EtcdResponse := ⟨0, "", "create", ⟨5, "shard-5-leader", 5, "0"⟩⟩

/-- Concrete environment in which the acquisition `Put` succeeds and the
broadcast publish then fails with a transport error. -/
def envW2 : Env :=
  ⟨.ok getRespW2, .ok acquireRespW2, .transportError, .transportError, 1/2, 1/2⟩

/-- Claim C2 counterexample: at this concrete input the `Get` returns
`errorCode = 100`, the acquisition `Put` returns `errorCode = 0`, and the
broadcast publish fails with a transport error.  The claim says the actor
stops "with isLeader already true"; in the source `state.leader = true`
(line 170) executes only after the publish error check (line 166), so the
actor stops with `leader` still `false`. -/
theorem claim_C2_counterexample :
    (loop stateW2 envW2).success = false ∧ (loop stateW2 envW2).state.leader = false :=
  ⟨rfl, rfl⟩

/-- Claim C2 as amended: on `errorCode = 100` the cycle issues the
must-not-exist acquisition `Put`; if it succeeds the cycle issues the
unconditional broadcast publish and becomes leader only after that publish
returns without transport error — a transport error on the publish stops
the actor with `leader` unchanged (still `false` for a follower); a parsed
publish response (any `errorCode`) is ignored and the actor is leader; a
rejected acquisition leaves the whole state unchanged. -/
theorem claim_C2_acquire (s : State) (e : Env) (g : EtcdResponse)
    (hg : e.getResult = .ok g) (hec : g.ErrorCode = 100) :
    (Event.putCall (s.key ++ "-leader") s.id ⟨0, false, -1, 0⟩
      e.acquireResult ∈ (loop s e).events)
  ∧ (∀ p, e.acquireResult = .ok p → p.ErrorCode = 0 →
      (Event.putCall (s.key ++ "-broadcast") s.id ⟨0, false, 0, 0⟩
        e.broadcastResult ∈ (loop s e).events)
      ∧ (e.broadcastResult = .transportError →
          (loop s e).success = false ∧ (loop s e).state.leader = s.leader)
      ∧ (∀ b, e.broadcastResult = .ok b →
          (loop s e).state.leader = true ∧ (loop s e).success = true))
  ∧ (∀ p, e.acquireResult = .ok p → p.ErrorCode ≠ 0 →
      (loop s e).state = s ∧ (loop s e).success = true) := by
  cases ha : e.acquireResult with
  | transportError =>
    rw [loop_eq_acquire_transport s e g hg hec ha]
    refine ⟨by simp, ?_, ?_⟩ <;>
      exact fun p h1 _ => absurd h1 (by simp)
  | ok p =>
    by_cases hp : p.ErrorCode = 0
    · cases hb : e.broadcastResult with
      | transportError =>
        rw [loop_eq_acquire_publish_transport s e g p hg hec ha hp hb]
        refine ⟨by simp, ?_, ?_⟩
        · intro p' _ _
          refine ⟨by simp, fun _ => ⟨rfl, rfl⟩, ?_⟩
          intro b h2
          exact absurd h2 (by simp)
        · intro p' h1 h2
          injection h1 with h3
          subst h3
          exact absurd hp h2
      | ok b =>
        rw [loop_eq_acquire_publish_ok s e g p b hg hec ha hp hb]
        refine ⟨by simp, ?_, ?_⟩
        · intro p' _ _
          refine ⟨by simp, ?_, fun b' _ => ⟨rfl, rfl⟩⟩
          intro h2
          exact absurd h2 (by simp)
        · intro p' h1 h2
          injection h1 with h3
          subst h3
          exact absurd hp h2
    · rw [loop_eq_acquire_fail s e g p hg hec ha hp]
      refine ⟨by simp, ?_, ?_⟩
      · intro p' h1 h2
        injection h1 with h3
        subst h3
        exact absurd h2 hp
      · intro p' _ _
        exact ⟨rfl, rfl⟩

/-- Claim C2 witness: the amended acquisition behaviour at the concrete
input of the counterexample. -/
theorem claim_C2_witness :
    (Event.putCall (stateW2.key ++ "-leader") stateW2.id ⟨0, false, -1, 0⟩
      envW2.acquireResult ∈ (loop stateW2 envW2).events)
  ∧ (∀ p, envW2.acquireResult = .ok p → p.ErrorCode = 0 →
      (Event.putCall (stateW2.key ++ "-broadcast") stateW2.id ⟨0, false, 0, 0⟩
        envW2.broadcastResult ∈ (loop stateW2 envW2).events)
      ∧ (envW2.broadcastResult = .transportError →
          (loop stateW2 envW2).success = false
          ∧ (loop stateW2 envW2).state.leader = stateW2.leader)
      ∧ (∀ b, envW2.broadcastResult = .ok b →
          (loop stateW2 envW2).state.leader = true
          ∧ (loop stateW2 envW2).success = true))
  ∧ (∀ p, envW2.acquireResult = .ok p → p.ErrorCode ≠ 0 →
      (loop stateW2 envW2).state = stateW2 ∧ (loop stateW2 envW2).success = true) :=
  claim_C2_acquire stateW2 envW2 getRespW2 rfl rfl

/-- Claim C10: the acquisition `Put` carries no TTL directive: its options
are `⟨0, false, -1, 0⟩`, so no `ttl` field is encoded in its request body;
moreover every `Put` the key-absent cycle issues (acquisition and
broadcast) carries `ttl = 0`. -/
theorem claim_C10_acquire_no_ttl (s : State) (e : Env) (g : EtcdResponse)
    (hg : e.getResult = .ok g) (hec : g.ErrorCode = 100) :
    (Event.putCall (s.key ++ "-leader") s.id ⟨0, false, -1, 0⟩
      e.acquireResult ∈ (loop s e).events)
  ∧ (∀ v, ("ttl", v) ∉ putBody s.id ⟨0, false, -1, 0⟩)
  ∧ (∀ k v o r, Event.putCall k v o r ∈ (loop s e).events → o.ttl = 0) := by
  cases ha : e.acquireResult with
  | transportError =>
    rw [loop_eq_acquire_transport s e g hg hec ha]
    refine ⟨by simp, fun v => by simp [putBody], ?_⟩
    intro k v o r hmem
    simp at hmem
    obtain ⟨-, -, ho, -⟩ := hmem
    simp [ho]
  | ok p =>
    by_cases hp : p.ErrorCode = 0
    · cases hb : e.broadcastResult with
      | transportError =>
        rw [loop_eq_acquire_publish_transport s e g p hg hec ha hp hb]
        refine ⟨by simp, fun v => by simp [putBody], ?_⟩
        intro k v o r hmem
        simp at hmem
        rcases hmem with ⟨-, -, ho, -⟩ | ⟨-, -, ho, -⟩ <;> simp [ho]
      | ok b =>
        rw [loop_eq_acquire_publish_ok s e g p b hg hec ha hp hb]
        refine ⟨by simp, fun v => by simp [putBody], ?_⟩
        intro k v o r hmem
        simp at hmem
        rcases hmem with ⟨-, -, ho, -⟩ | ⟨-, -, ho, -⟩ <;> simp [ho]
    · rw [loop_eq_acquire_fail s e g p hg hec ha hp]
      refine ⟨by simp, fun v => by simp [putBody], ?_⟩
      intro k v o r hmem
      simp at hmem
      obtain ⟨-, -, ho, -⟩ := hmem
      simp [ho]

/-- Claim C10 witness: the TTL-free acquisition at a concrete input. -/
theorem claim_C10_witness :
    (Event.putCall (stateW2.key ++ "-leader") stateW2.id ⟨0, false, -1, 0⟩
      envW2.acquireResult ∈ (loop stateW2 envW2).events)
  ∧ (∀ v, ("ttl", v) ∉ putBody stateW2.id ⟨0, false, -1, 0⟩)
  ∧ (∀ k v o r, Event.putCall k v o r ∈ (loop stateW2 envW2).events → o.ttl = 0) :=
  claim_C10_acquire_no_ttl stateW2 envW2 getRespW2 rfl rfl

/-- Claim C8: when the `Get` succeeds (`errorCode = 0`) and the stored
value names another actor, the cycle issues no store write, leaves every
field of the actor state unchanged, and proceeds directly to the jittered
sleep. -/
theorem claim_C8_other_holder_frame (s : State) (e : Env) (g : EtcdResponse)
    (hg : e.getResult = .ok g) (hec : g.ErrorCode = 0) (hv : g.node.value ≠ s.id) :
    (loop s e).state = s ∧ (loop s e).success = true
  ∧ (loop s e).events.countP Event.isWrite = 0
  ∧ (loop s e).events = [.getCall (s.key ++ "-leader") ⟨0, false, 0, 0⟩ (.ok g),
      .sleepFor (jitterSleep s.ttl e.jitterDraw)] := by
  rw [loop_eq_other_holder s e g hg hec hv]
  simp [Event.isWrite]

/-- Claim C9: when the `Get` comes back without transport error but with
an `errorCode` that is neither `0` nor `100`, no source branch matches:
the cycle issues no store write, leaves the actor state unchanged, sleeps
the jittered interval and continues. -/
theorem claim_C9_unknown_code_frame (s : State) (e : Env) (g : EtcdResponse)
    (hg : e.getResult = .ok g) (hec0 : g.ErrorCode ≠ 0) (hec100 : g.ErrorCode ≠ 100) :
    (loop s e).state = s ∧ (loop s e).success = true
  ∧ (loop s e).events.countP Event.isWrite = 0
  ∧ (loop s e).events = [.getCall (s.key ++ "-leader") ⟨0, false, 0, 0⟩ (.ok g),
      .sleepFor (jitterSleep s.ttl e.jitterDraw)] := by
  rw [loop_eq_unknown_code s e g hg hec0 hec100]
  simp [Event.isWrite]

/-- Concrete actor state for the claims C8, C9 and C3 witnesses. -/
def stateW8 : State := ⟨"shard-5", "2", false, 1000000000⟩

/-- Concrete `Get` response naming another actor (`"9" ≠ "2"`). -/
def respW8 : EtcdResponse := ⟨0, "", "get", ⟨3, "shard-5-leader", 3, "9"⟩⟩

/-- Concrete environment for the claims C8 and C3 witnesses. -/
def envW8 : Env := ⟨.ok respW8, .transportError, .transportError, .transportError, 1/2, 1/3⟩

/-- Claim C8 witness: the frame property at a concrete input where the
leader key is held by another actor. -/
theorem claim_C8_witness :
    (loop stateW8 envW8).state = stateW8 ∧ (loop stateW8 envW8).success = true
  ∧ (loop stateW8 envW8).events.countP Event.isWrite = 0
  ∧ (loop stateW8 envW8).events =
      [.getCall (stateW8.key ++ "-leader") ⟨0, false, 0, 0⟩ (.ok respW8),
       .sleepFor (jitterSleep stateW8.ttl envW8.jitterDraw)] :=
  claim_C8_other_holder_frame stateW8 envW8 respW8 rfl rfl (by decide)

/-- Concrete `Get` response with an unanticipated store failure code. -/
def respW9 : EtcdResponse := ⟨105, "Key already exists", "create", ⟨0, "", 0, ""⟩⟩

/-- Concrete environment for the claim C9 witness. -/
def envW9 : Env := ⟨.ok respW9, .transportError, .transportError, .transportError, 1/2, 1/3⟩

/-- Claim C9 witness: the frame property at a concrete input whose `Get`
returns `errorCode = 105`. -/
theorem claim_C9_witness :
    (loop stateW8 envW9).state = stateW8 ∧ (loop stateW8 envW9).success = true
  ∧ (loop stateW8 envW9).events.countP Event.isWrite = 0
  ∧ (loop stateW8 envW9).events =
      [.getCall (stateW8.key ++ "-leader") ⟨0, false, 0, 0⟩ (.ok respW9),
       .sleepFor (jitterSleep stateW8.ttl envW9.jitterDraw)] :=
  claim_C9_unknown_code_frame stateW8 envW9 respW9 rfl (by decide) (by decide)

/-- Every cycle that completes (returns `true`) ends with the jittered
sleep event, whatever branch it took. -/
lemma loop_success_ends_sleep (s : State) (e : Env)
    (hs : (loop s e).success = true) :
    ∃ pre, (loop s e).events = pre ++ [Event.sleepFor (jitterSleep s.ttl e.jitterDraw)] := by
  cases hg : e.getResult with
  | transportError =>
    rw [loop_eq_get_transport s e hg] at hs
    simp at hs
  | ok g =>
    by_cases h100 : g.ErrorCode = 100
    · cases ha : e.acquireResult with
      | transportError =>
        rw [loop_eq_acquire_transport s e g hg h100 ha] at hs
        simp at hs
      | ok p =>
        by_cases hp : p.ErrorCode = 0
        · cases hb : e.broadcastResult with
          | transportError =>
            rw [loop_eq_acquire_publish_transport s e g p hg h100 ha hp hb] at hs
            simp at hs
          | ok b =>
            rw [loop_eq_acquire_publish_ok s e g p b hg h100 ha hp hb]
            exact ⟨[.getCall (s.key ++ "-leader") ⟨0, false, 0, 0⟩ (.ok g),
              .putCall (s.key ++ "-leader") s.id ⟨0, false, -1, 0⟩ (.ok p),
              .putCall (s.key ++ "-broadcast") s.id ⟨0, false, 0, 0⟩ (.ok b)], by simp⟩
        · rw [loop_eq_acquire_fail s e g p hg h100 ha hp]
          exact ⟨[.getCall (s.key ++ "-leader") ⟨0, false, 0, 0⟩ (.ok g),
            .putCall (s.key ++ "-leader") s.id ⟨0, false, -1, 0⟩ (.ok p)], by simp⟩
    · by_cases h0 : g.ErrorCode = 0
      · by_cases hv : g.node.value = s.id
        · cases hr : e.renewResult with
          | transportError =>
            rw [loop_eq_renew_transport s e g hg h0 hv hr] at hs
            simp at hs
          | ok p =>
            by_cases hp : p.ErrorCode = 0
            · cases hb : e.broadcastResult with
              | transportError =>
                rw [loop_eq_renew_publish_transport s e g p hg h0 hv hr hp hb] at hs
                simp at hs
              | ok b =>
                rw [loop_eq_renew_publish_ok s e g p b hg h0 hv hr hp hb]
                exact ⟨[Event.getCall (s.key ++ "-leader") ⟨0, false, 0, 0⟩ (.ok g)]
                  ++ (if e.stallDraw < 1/4 then [Event.sleepFor (s.ttl * 10)] else [])
                  ++ [Event.putCall (s.key ++ "-leader") s.id
                        ⟨s.ttl, false, 0, g.node.ModifiedIndex⟩ (.ok p),
                      Event.putCall (s.key ++ "-broadcast") s.id ⟨0, false, -1, 0⟩ (.ok b)],
                  by simp⟩
            · rw [loop_eq_renew_fail s e g p hg h0 hv hr hp]
              exact ⟨[Event.getCall (s.key ++ "-leader") ⟨0, false, 0, 0⟩ (.ok g)]
                ++ (if e.stallDraw < 1/4 then [Event.sleepFor (s.ttl * 10)] else [])
                ++ [Event.putCall (s.key ++ "-leader") s.id
                      ⟨s.ttl, false, 0, g.node.ModifiedIndex⟩ (.ok p)],
                by simp⟩
        · rw [loop_eq_other_holder s e g hg h0 hv]
          exact ⟨[.getCall (s.key ++ "-leader") ⟨0, false, 0, 0⟩ (.ok g)], by simp⟩
      · rw [loop_eq_unknown_code s e g hg h0 h100]
        exact ⟨[.getCall (s.key ++ "-leader") ⟨0, false, 0, 0⟩ (.ok g)], by simp⟩

/-- Claim C3: every cycle that completes without a transport error ends
with the jittered sleep, and — for any draw in `[0, 1)` — that sleep lies
in `[leaseTTL/8, 3·leaseTTL/8]` (stated for `8 ∣ leaseTTL ≥ 0`; the
program's `leaseTTL` is `10^9` ns). -/
theorem claim_C3_jitter_bounds (s : State) (e : Env)
    (h8 : (8 : ℤ) ∣ s.ttl) (ht : 0 ≤ s.ttl)
    (hr0 : 0 ≤ e.jitterDraw) (hr1 : e.jitterDraw < 1)
    (hs : (loop s e).success = true) :
    (∃ pre, (loop s e).events = pre ++ [Event.sleepFor (jitterSleep s.ttl e.jitterDraw)])
  ∧ (s.ttl : ℚ)/8 ≤ (jitterSleep s.ttl e.jitterDraw : ℚ)
  ∧ (jitterSleep s.ttl e.jitterDraw : ℚ) ≤ 3 * s.ttl/8 := by
  obtain ⟨h1, h2⟩ := jitterSleep_bounds s.ttl e.jitterDraw h8 ht hr0 hr1
  exact ⟨loop_success_ends_sleep s e hs, h1, h2⟩

/-- Claim C3 witness: the jitter bounds at a concrete completing cycle
(`ttl = 10^9`, draw `1/3`). -/
theorem claim_C3_witness :
    (∃ pre, (loop stateW8 envW8).events =
      pre ++ [Event.sleepFor (jitterSleep stateW8.ttl envW8.jitterDraw)])
  ∧ (stateW8.ttl : ℚ)/8 ≤ (jitterSleep stateW8.ttl envW8.jitterDraw : ℚ)
  ∧ (jitterSleep stateW8.ttl envW8.jitterDraw : ℚ) ≤ 3 * stateW8.ttl/8 :=
  claim_C3_jitter_bounds stateW8 envW8 ⟨125000000, by norm_num [stateW8]⟩
    (by norm_num [stateW8]) (by norm_num [envW8]) (by norm_num [envW8]) rfl

/-- Claim C6 counterexample: the claim says the inter-cycle sleep is
`leaseTTL/4 × U` for `U` drawn from `[0.5, 1.0)`.  At `ttl = 10^9` and the
producible draw `r = 3/4` the code computes
`⌊(ttl/4) · (0.5 + 0.75)⌋ = 312500000`, which no multiplier `u ∈ [0.5, 1)`
of `ttl/4 = 250000000` can produce. -/
theorem claim_C6_counterexample :
    ¬ ∃ u : ℚ, 1/2 ≤ u ∧ u < 1 ∧
      jitterSleep 1000000000 (3/4) = ⌊((Int.tdiv (1000000000 : ℤ) 4 : ℤ) : ℚ) * u⌋ := by
  rintro ⟨u, hu1, hu2, heq⟩
  have htd : (Int.tdiv (1000000000 : ℤ) 4 : ℤ) = 250000000 := by decide
  rw [htd] at heq
  have h1 : jitterSleep 1000000000 (3/4) = 312500000 := by
    unfold jitterSleep jitterMultiplier
    rw [htd, Int.floor_eq_iff]
    constructor <;> norm_num
  rw [h1] at heq
  have h2 : ((312500000 : ℤ) : ℚ) ≤ ((250000000 : ℤ) : ℚ) * u := by
    rw [heq]
    exact Int.floor_le _
  push_cast at h2
  linarith

/-- Claim C6 as amended: the sleep is `⌊leaseTTL/4 × U⌋` where
`U = 0.5 + r` for the single uniform draw `r ∈ [0, 1)`, so `U` ranges over
`[0.5, 1.5)`, not `[0.5, 1.0)`. -/
theorem claim_C6_amended (ttl : ℤ) (r : ℚ) (hr0 : 0 ≤ r) (hr1 : r < 1) :
    jitterSleep ttl r = ⌊((Int.tdiv ttl 4 : ℤ) : ℚ) * jitterMultiplier r⌋
  ∧ 1/2 ≤ jitterMultiplier r ∧ jitterMultiplier r < 3/2 := by
  refine ⟨rfl, ?_, ?_⟩ <;> unfold jitterMultiplier <;> linarith

/-- Claim C6 witness: the amended multiplier range at the concrete draw
`r = 3/4`. -/
theorem claim_C6_witness :
    jitterSleep 1000000000 (3/4) =
      ⌊((Int.tdiv (1000000000 : ℤ) 4 : ℤ) : ℚ) * jitterMultiplier (3/4)⌋
  ∧ 1/2 ≤ jitterMultiplier (3/4) ∧ jitterMultiplier (3/4) < 3/2 :=
  claim_C6_amended 1000000000 (3/4) (by norm_num) (by norm_num)

end EtcdLeader
